import Mathlib

/-!
Shallow embedding of the core of the employee verification platform:
the ChromaDB vector-index adapter (`ChromaService`, chroma_service.py),
the face-embedding extractor wrapper (`FaceService`, face_service.py),
and the enrollment / verification orchestration views (views.py).

External collaborators (the ChromaDB collection, DeepFace, sklearn's
normalize, Django's storage) are modelled as explicit inputs: each call
into them is represented by an outcome value supplied to the embedded
function, and their state (the record table, the vector index, the
temporary file) is threaded explicitly.  Python floats appearing as
similarity scores, distances and thresholds are modelled as rationals;
the claims under study are algebraic, not bit-level.
-/

namespace EVP

/-! ### Metadata values and sanitization (chroma_service.py lines 107-118)

`add_employee_embedding` receives `metadata: Dict[str, Any]` and cleans it:
a `str` value goes through
`str(value).replace('\x00', '').replace('\r', '').replace('\n', ' ').strip()`;
an `int` or `float` value becomes `str(value)`; any other value becomes
`str(value)`.  A Python value is modelled by which `isinstance` branch it
takes; for a `float` and for an arbitrary object the model carries the
string `str(value)` produces, since IEEE-754 rendering and arbitrary
user-defined `__str__` methods live outside the repository. -/

/-- A metadata value as dispatched by the `isinstance` checks of
`add_employee_embedding`: a Python `str`, a Python `int`, a Python `float`
(carrying the string `str(value)` renders it to), or any other object
(carrying the string `str(value)` renders it to). -/
inductive MValue where
  | str (v : String)
  | int (n : Int)
  | floatRep (r : String)
  | other (r : String)
deriving Repr, DecidableEq

/-- The NUL character `'\x00'`. -/
def nulChar : Char := Char.ofNat 0

/-- Per-character effect of the chained replaces
`.replace('\x00', '').replace('\r', '').replace('\n', ' ')`: each pattern is
a single character and the three cases are disjoint, so the chain acts
independently on every character — NUL is dropped, CR is dropped, LF becomes
a single space, everything else is kept. -/
def cleanChar (c : Char) : Option Char :=
  if c = nulChar then none
  else if c = '\r' then none
  else if c = '\n' then some ' '
  else some c

/-- Python's `str.strip()` whitespace test, restricted to the ASCII
whitespace characters (space, tab, LF, CR, vertical tab, form feed). -/
def pyIsSpace (c : Char) : Bool :=
  c = ' ' || c = '\t' || c = '\n' || c = '\r' ||
  c = Char.ofNat 11 || c = Char.ofNat 12

/-- Python's `str.strip()`: drop whitespace from both ends. -/
def pyStrip (l : List Char) : List Char :=
  ((l.dropWhile pyIsSpace).reverse.dropWhile pyIsSpace).reverse

/-- The string branch of the metadata cleaning in `add_employee_embedding`:
`str(value).replace('\x00', '').replace('\r', '').replace('\n', ' ').strip()`. -/
def sanitizeString (s : String) : String :=
  String.mk (pyStrip (s.data.filterMap cleanChar))

/-- One metadata value after the cleaning loop of `add_employee_embedding`
(chroma_service.py lines 109-118): strings are sanitized, `int` values are
rendered by `str` (Python's `str(int)` agrees with `Int` rendering:
optional minus sign followed by decimal digits), `float` values and all
other values are rendered by `str`, with no further cleaning. -/
def sanitizeValue : MValue → String
  | .str v => sanitizeString v
  | .int n => toString n
  | .floatRep r => r
  | .other r => r

/-- The `clean_metadata` dictionary built by the loop in
`add_employee_embedding` (chroma_service.py lines 108-118). -/
def clean_metadata (m : List (String × MValue)) : List (String × String) :=
  m.map fun kv => (kv.1, sanitizeValue kv.2)

/-! ### The vector index (ChromaDB collection) -/

/-- One entry of the ChromaDB collection: the embedding and the sanitized
metadata, keyed by the employee uuid string. -/
def Index := List (String × (List ℚ × List (String × String)))

instance : DecidableEq Index := by
  unfold Index; infer_instance

/-- ChromaDB's `Collection.add`: inserting under an id that is already
present does not overwrite the existing entry — classic clients raise
`DuplicateIDError`, which the service's `except` turns into a `False`
return; newer clients log a warning and skip the duplicate.  Modelled as
the raising variant: `none` signals the duplicate-id exception, and in
neither variant does the old entry change. -/
def collection_add (id : String) (emb : List ℚ) (md : List (String × String))
    (idx : Index) : Option Index :=
  if (List.lookup id idx).isSome then none
  else some ((id, (emb, md)) :: idx)

/-- `ChromaService.add_employee_embedding` (chroma_service.py lines 84-134):
sanitize the metadata, call `collection.add`, return `True` on success; any
exception — the collection being unreachable (`infraOk = false`) or the
duplicate-id error — is caught and the function returns `False`, with the
index unchanged.  Returns the success flag and the resulting index. -/
def add_employee_embedding (infraOk : Bool) (id : String) (emb : List ℚ)
    (md : List (String × MValue)) (idx : Index) : Bool × Index :=
  if infraOk then
    match collection_add id emb (clean_metadata md) idx with
    | some idx2 => (true, idx2)
    | none => (false, idx)
  else (false, idx)

/-! ### search_embedding (chroma_service.py lines 136-192) -/

/-- The match dictionary built by `search_embedding`. -/
structure MatchResult where
  id : String
  distance : ℚ
  similarity : ℚ
  metadata : List (String × String)
deriving Repr, DecidableEq

/-- Outcome of `collection.query`: either the candidate list
`(id, distance, metadata)` in ascending distance order (empty when the
collection has no entries), or an exception raised by the query. -/
inductive QueryOutcome where
  | ok (candidates : List (String × ℚ × List (String × String)))
  | exn (msg : String)
deriving Repr, DecidableEq

/-- `ChromaService.search_embedding`: on a query exception the `except`
block logs and returns `None` (lines 190-192); with no candidate ids it
returns `None` (lines 162-164); otherwise it takes the top candidate and
computes `similarity = 1 - (distance / 2)` (line 174). -/
def search_embedding : QueryOutcome → Option MatchResult
  | .exn _ => none
  | .ok [] => none
  | .ok ((id, d, md) :: _) =>
      some { id := id, distance := d, similarity := 1 - d / 2, metadata := md }

/-! ### FaceService.extract_embedding (face_service.py lines 29-85) -/

/-- Outcome of the `DeepFace.represent` call: the list of face
representations, a `ValueError` (raised by DeepFace when no face is
detected under `enforce_detection=True`), or any other library exception. -/
inductive DFOutcome where
  | faces (reps : List (List ℚ))
  | valueError (msg : String)
  | otherError (msg : String)
deriving Repr, DecidableEq

/-- Result of the `try` block body of `extract_embedding` before the
`except` handlers run: a value, or a pending Python exception.
`faceRecErr` is a `FaceRecognitionError` raised *inside* the `try` block
(the empty-result and multiple-faces raises at lines 60 and 62-66). -/
inductive TryResult where
  | ok (v : List ℚ)
  | valueErr (msg : String)
  | faceRecErr (msg : String)
  | otherErr (msg : String)
deriving Repr, DecidableEq

/-- The message of the raise at face_service.py lines 62-66. -/
def multipleFacesMsg (n : Nat) : String :=
  "Multiple faces detected (" ++ toString n ++
    "). Please provide an image with a single face."

/-- The `try` block body of `extract_embedding` (face_service.py lines
46-76): call `DeepFace.represent`; raise `FaceRecognitionError` when the
result is empty or has more than one face; otherwise normalize the single
embedding and return it.  `normalize` stands for
`sklearn.preprocessing.normalize` (L2 normalization of a real vector), an
external collaborator passed in as a function. -/
def extract_try_body (normalize : List ℚ → List ℚ) : DFOutcome → TryResult
  | .valueError m => .valueErr m
  | .otherError m => .otherErr m
  | .faces [] => .faceRecErr "No face detected in the image"
  | .faces [r] => .ok (normalize r)
  | .faces (r :: r2 :: rest) =>
      .faceRecErr (multipleFacesMsg (r :: r2 :: rest).length)

/-- `FaceService.extract_embedding`: the missing-file check (line 43-44)
raises outside the `try`; then the `except` handlers run on the body's
outcome: `except ValueError` (line 78) maps to the fixed no-face message;
`except Exception` (line 83) catches *everything else* — including the
`FaceRecognitionError`s the body itself raised, since
`FaceRecognitionError` subclasses `Exception` and is not a `ValueError` —
and re-raises `FaceRecognitionError("Failed to process image: " + str(e))`.
An `error` result is the message of the `FaceRecognitionError` delivered
to the caller. -/
def extract_embedding (normalize : List ℚ → List ℚ) (fileExists : Bool)
    (path : String) (df : DFOutcome) : Except String (List ℚ) :=
  if fileExists = false then .error ("Image file not found: " ++ path)
  else
    match extract_try_body normalize df with
    | .ok v => .ok v
    | .valueErr _ =>
        .error "No face detected in the image. Please provide a clear face photo."
    | .faceRecErr m => .error ("Failed to process image: " ++ m)
    | .otherErr m => .error ("Failed to process image: " ++ m)

/-! ### The identity record store (Employee model, models.py) -/

/-- Decidable equality for fallible results, used to evaluate the embedded
functions on concrete inputs. -/
instance {ε α : Type} [DecidableEq ε] [DecidableEq α] : DecidableEq (Except ε α)
  | .error a, .error b =>
      if h : a = b then .isTrue (by rw [h])
      else .isFalse (fun hc => h (by injection hc))
  | .error _, .ok _ => .isFalse (fun hc => Except.noConfusion hc)
  | .ok _, .error _ => .isFalse (fun hc => Except.noConfusion hc)
  | .ok a, .ok b =>
      if h : a = b then .isTrue (by rw [h])
      else .isFalse (fun hc => h (by injection hc))

/-- The fields of the `Employee` Django model that the core flows read
(models.py lines 9-68).  `reputation_score` is a bounded float, modelled
as a rational; `reputation_score_str` carries the string Python's
`str(float(...))` renders the score to, used when the enrollment view
builds index metadata. -/
structure EmployeeRec where
  full_name : String
  phone : String
  email : String
  employer_name : String
  position : String
  reputation_score : ℚ
  reputation_score_str : String
  notes : String
  image : String
deriving Repr, DecidableEq

/-- The record table of the store, keyed by uuid string. -/
def Records := List (String × EmployeeRec)

instance : DecidableEq Records := by
  unfold Records; infer_instance

/-- `employee.delete()`: remove the row with the given uuid. -/
def deleteRecord (id : String) (rs : Records) : Records :=
  rs.filter fun kv => kv.1 != id

/-- Combined visible state of the two stores: the identity record table
and the vector index. -/
structure SysState where
  records : Records
  index : Index
deriving DecidableEq

/-! ### Enrollment orchestration (`add_employee`, views.py lines 33-104)

The view, on a valid POST: save the employee row; extract the embedding
from the saved image; build the metadata dictionary from the employee's
fields; call `ChromaService.add_employee_embedding`; on `False`, delete
the employee row and report failure; on a `FaceRecognitionError` or any
other exception, delete the row (when it exists) and report the error. -/

/-- One enrollment invocation's collaborator outcomes: whether
`form.save()` succeeds, what `FaceService.extract_embedding` yields for
the saved image, and whether the ChromaDB collection is reachable for the
index write. -/
structure EnrollWorld where
  createOk : Bool
  extractResult : Except String (List ℚ)
  indexInfraOk : Bool
deriving Repr, DecidableEq

/-- Outcome of one enrollment call, as the view reports it: success
(redirect with a success message), record creation failure (the generic
`except Exception` branch with no row saved), extraction failure (the
`except FaceRecognitionError` branch, carrying the error message), or
index write failure (the `success == False` branch). -/
inductive EnrollOutcome where
  | success (id : String)
  | createFailed
  | extractionFailed (msg : String)
  | indexWriteFailed
deriving Repr, DecidableEq

/-- Whether the enrollment call succeeded. -/
def EnrollOutcome.isSuccess : EnrollOutcome → Bool
  | .success _ => true
  | _ => false

/-- The metadata dictionary the view builds at views.py lines 53-57:
`full_name` and `employer` as Python strings, `reputation_score` as
`float(employee.reputation_score)`. -/
def buildMetadata (emp : EmployeeRec) : List (String × MValue) :=
  [("full_name", .str emp.full_name),
   ("employer", .str emp.employer_name),
   ("reputation_score", .floatRep emp.reputation_score_str)]

/-- The enrollment orchestration of `add_employee` (views.py lines
40-95), for a valid form and a fresh uuid `id` assigned to the saved row:

* `form.save()` fails → the generic handler runs, `employee` is not in
  `locals()`, nothing is deleted, the view reports an unexpected error;
* extraction raises `FaceRecognitionError msg` → the handler deletes the
  just-saved row and reports `msg`;
* `add_employee_embedding` returns `False` → the view deletes the row and
  reports the index-write failure;
* otherwise → success.

Returns the outcome and the resulting store state. -/
def add_employee (w : EnrollWorld) (id : String) (emp : EmployeeRec)
    (st : SysState) : EnrollOutcome × SysState :=
  if w.createOk = false then (.createFailed, st)
  else
    let st1 : SysState := { st with records := (id, emp) :: st.records }
    match w.extractResult with
    | .error msg =>
        (.extractionFailed msg, { st1 with records := deleteRecord id st1.records })
    | .ok emb =>
        match add_employee_embedding w.indexInfraOk id emb (buildMetadata emp)
            st1.index with
        | (true, idx2) => (.success id, { st1 with index := idx2 })
        | (false, idx2) =>
            (.indexWriteFailed,
             { records := deleteRecord id st1.records, index := idx2 })

/-! ### Verification orchestration (`verify_employee`, views.py lines 107-211)

The view, on a valid POST: save the probe to a temporary file; inside a
`try`/`finally`, extract the embedding, call `search_embedding`, delete
the temporary file (line 136), and branch on the match result; the
`finally` (lines 189-192) deletes the temporary file if it still exists.
A `FaceRecognitionError` propagates out of the inner `try` (running the
`finally`) into the outer handler, which reports the message. -/

/-- The default accept threshold (settings.py line 14). -/
def SIMILARITY_THRESHOLD : ℚ := 0.65

/-- One verification invocation's collaborator outcomes: what
`FaceService.extract_embedding` yields for the temporary probe file, and
what `collection.query` yields inside `search_embedding`. -/
structure VerifyWorld where
  extractResult : Except String (List ℚ)
  queryOutcome : QueryOutcome
deriving Repr, DecidableEq

/-- Outcome of one verification call, as the view renders it: the
extraction error message (outer `except FaceRecognitionError`), a match
with the resolved employee, similarity and confidence string (lines
150-161), the missing-record error (`Employee.DoesNotExist`, lines
163-168), below-threshold no-match retaining the similarity (lines
169-179), or the no-data no-match with its fixed message (lines 180-187). -/
inductive VerifyOutcome where
  | errorMessage (msg : String)
  | matchFound (emp : EmployeeRec) (similarity : ℚ) (confidence : String)
  | recordMissing (id : String)
  | noMatchBelowThreshold (similarity : ℚ) (threshold : ℚ)
  | noMatchNoData (msg : String)
deriving Repr, DecidableEq

/-- Whether the view's outcome is an error report rather than a decision
(messages.error paths). -/
def VerifyOutcome.isError : VerifyOutcome → Bool
  | .errorMessage _ => true
  | .recordMissing _ => true
  | _ => false

/-- The inner `try` body of `verify_employee` (views.py lines 126-187),
with the temporary file's existence threaded: the file exists (`true`)
when the body starts; the explicit delete at line 136 clears it on every
path that reaches the branching; an extraction error exits the body with
the file still present.  Returns the outcome and whether the temporary
file still exists when the body exits. -/
def verify_body (w : VerifyWorld) (records : Records) (threshold : ℚ) :
    VerifyOutcome × Bool :=
  match w.extractResult with
  | .error msg => (.errorMessage msg, true)
  | .ok _ =>
      match search_embedding w.queryOutcome with
      | some m =>
          if m.similarity ≥ threshold then
            match List.lookup m.id records with
            | some emp =>
                (.matchFound emp m.similarity
                   (if m.similarity ≥ 0.8 then "High" else "Medium"), false)
            | none => (.recordMissing m.id, false)
          else (.noMatchBelowThreshold m.similarity threshold, false)
      | none =>
          (.noMatchNoData "No matching employee found in the database.", false)

/-- The `finally` block at views.py lines 189-192: delete the temporary
file if it still exists. -/
def finallyCleanup (tempExists : Bool) : Bool :=
  if tempExists then false else tempExists

/-- `verify_employee` on a valid POST: the temporary file is created, the
inner body runs, and the `finally` runs on every exit.  Returns the
outcome and whether the temporary file exists after the call returns. -/
def verify_employee (w : VerifyWorld) (records : Records) (threshold : ℚ) :
    VerifyOutcome × Bool :=
  let r := verify_body w records threshold
  (r.1, finallyCleanup r.2)

/-! ### Auxiliary definitions used by the statements -/

/-- A character is acceptable for index metadata: not NUL, not CR, not LF. -/
def charOk (c : Char) : Bool :=
  c != nulChar && c != '\r' && c != '\n'

/-- A string free of NUL, CR and LF. -/
def noCtrlChars (s : String) : Bool :=
  s.data.all charOk

/-- A concrete employee record used to evaluate the flows. -/
def sampleEmployee : EmployeeRec :=
  { full_name := "Jane Smith", phone := "+1234567890",
    email := "jane@example.com", employer_name := "Acme Corp",
    position := "Engineer", reputation_score := 8,
    reputation_score_str := "8.0", notes := "",
    image := "employee_photos/jane.jpg" }

/-- A concrete one-entry index used to evaluate the duplicate-id write. -/
def oldIdx : Index := [("e1", ([1], [("full_name", "Old Name")]))]

/-! ### Helper lemmas -/

lemma charOk_digitChar (n : Nat) : charOk (Nat.digitChar n) = true := by
  rcases Nat.lt_or_ge n 16 with h | h
  · interval_cases n <;> rfl
  · unfold Nat.digitChar
    rw [if_neg (by omega : ¬ n = 0), if_neg (by omega : ¬ n = 1),
        if_neg (by omega : ¬ n = 2), if_neg (by omega : ¬ n = 3),
        if_neg (by omega : ¬ n = 4), if_neg (by omega : ¬ n = 5),
        if_neg (by omega : ¬ n = 6), if_neg (by omega : ¬ n = 7),
        if_neg (by omega : ¬ n = 8), if_neg (by omega : ¬ n = 9),
        if_neg (by omega : ¬ n = 10), if_neg (by omega : ¬ n = 11),
        if_neg (by omega : ¬ n = 12), if_neg (by omega : ¬ n = 13),
        if_neg (by omega : ¬ n = 14), if_neg (by omega : ¬ n = 15)]
    rfl

lemma toDigitsCore_all_charOk (b : Nat) :
    ∀ (fuel n : Nat) (ds : List Char), ds.all charOk = true →
      (Nat.toDigitsCore b fuel n ds).all charOk = true := by
  intro fuel
  induction fuel with
  | zero => intro n ds h; simpa [Nat.toDigitsCore] using h
  | succ f ih =>
      intro n ds h
      unfold Nat.toDigitsCore
      dsimp only
      have hcons : (Nat.digitChar (n % b) :: ds).all charOk = true := by
        simp [List.all_cons, charOk_digitChar, h]
      split
      · exact hcons
      · exact ih _ _ hcons

lemma natRepr_noCtrl (n : Nat) : noCtrlChars (Nat.repr n) = true := by
  unfold noCtrlChars Nat.repr Nat.toDigits List.asString
  exact toDigitsCore_all_charOk 10 (n + 1) n [] rfl

lemma intToString_noCtrl (n : Int) : noCtrlChars (toString n) = true := by
  show noCtrlChars (Int.repr n) = true
  cases n with
  | ofNat m => exact natRepr_noCtrl m
  | negSucc m =>
      show noCtrlChars ("-" ++ Nat.repr (m + 1)) = true
      have h : ("-" ++ Nat.repr (m + 1)).data = '-' :: (Nat.repr (m + 1)).data := rfl
      unfold noCtrlChars
      rw [h, List.all_cons]
      have := natRepr_noCtrl (m + 1)
      unfold noCtrlChars at this
      simp [this]
      rfl

lemma mem_pyStrip {c : Char} {l : List Char} (h : c ∈ pyStrip l) : c ∈ l := by
  unfold pyStrip at h
  have h1 := List.mem_reverse.mp h
  have h2 := (List.dropWhile_sublist (l := (l.dropWhile pyIsSpace).reverse)
    (p := pyIsSpace)).subset h1
  have h3 := List.mem_reverse.mp h2
  exact (List.dropWhile_sublist (l := l) (p := pyIsSpace)).subset h3

lemma cleanChar_charOk {b c : Char} (h : cleanChar b = some c) : charOk c = true := by
  unfold cleanChar at h
  split at h
  · exact absurd h (by simp)
  · split at h
    · exact absurd h (by simp)
    · split at h
      · cases h; rfl
      · rename_i h1 h2 h3
        cases h
        simp only [charOk, Bool.and_eq_true, bne_iff_ne, ne_eq]
        exact ⟨⟨h1, h2⟩, h3⟩

lemma sanitizeString_noCtrl (v : String) :
    noCtrlChars (sanitizeString v) = true := by
  unfold noCtrlChars sanitizeString
  rw [List.all_eq_true]
  intro c hc
  have h1 : c ∈ pyStrip (v.data.filterMap cleanChar) := hc
  have h2 := mem_pyStrip h1
  obtain ⟨b, _, hb⟩ := List.mem_filterMap.mp h2
  exact cleanChar_charOk hb

lemma lookup_cons_self {β : Type} (id : String) (v : β)
    (l : List (String × β)) : List.lookup id ((id, v) :: l) = some v := by
  simp [List.lookup]

lemma lookup_cons_ne {β : Type} (id k : String) (v : β)
    (l : List (String × β)) (h : id ≠ k) :
    List.lookup id ((k, v) :: l) = List.lookup id l := by
  have hbeq : (id == k) = false := beq_eq_false_iff_ne.mpr h
  simp [List.lookup, hbeq]

lemma lookup_deleteRecord_self (id : String) (rs : Records) :
    List.lookup id (deleteRecord id rs) = none := by
  induction rs with
  | nil => rfl
  | cons kv t ih =>
      unfold deleteRecord at ih ⊢
      rw [List.filter_cons]
      split
      · rename_i h
        have hne : kv.1 ≠ id := by simpa using h
        rw [lookup_cons_ne id kv.1 kv.2 _ (Ne.symm hne)]
        exact ih
      · exact ih

lemma lookup_deleteRecord_ne (id id2 : String) (rs : Records) (h : id2 ≠ id) :
    List.lookup id2 (deleteRecord id rs) = List.lookup id2 rs := by
  induction rs with
  | nil => rfl
  | cons kv t ih =>
      unfold deleteRecord at ih ⊢
      rw [List.filter_cons]
      split
      · rename_i hkeep
        rcases kv with ⟨k, v⟩
        by_cases hk : id2 = k
        · subst hk
          rw [lookup_cons_self, lookup_cons_self]
        · rw [lookup_cons_ne _ _ _ _ hk, lookup_cons_ne _ _ _ _ hk]
          exact ih
      · rename_i hdrop
        rcases kv with ⟨k, v⟩
        have hk : k = id := by simpa using hdrop
        subst hk
        rw [lookup_cons_ne _ _ _ _ h]
        exact ih

lemma add_employee_createFail (ext : Except String (List ℚ)) (iok : Bool)
    (id : String) (emp : EmployeeRec) (st : SysState) :
    add_employee ⟨false, ext, iok⟩ id emp st = (.createFailed, st) := rfl

lemma add_employee_extractFail (iok : Bool) (msg id : String)
    (emp : EmployeeRec) (st : SysState) :
    add_employee ⟨true, .error msg, iok⟩ id emp st =
      (.extractionFailed msg,
       { st with records := deleteRecord id ((id, emp) :: st.records) }) := rfl

lemma add_employee_ok_fresh (emb : List ℚ) (id : String) (emp : EmployeeRec)
    (st : SysState) (hfi : List.lookup id st.index = none) :
    add_employee ⟨true, .ok emb, true⟩ id emp st =
      (.success id,
       { records := (id, emp) :: st.records,
         index := (id, (emb, clean_metadata (buildMetadata emp))) :: st.index }) := by
  unfold add_employee
  rw [if_neg (by simp)]
  simp [add_employee_embedding, collection_add, hfi]

lemma add_employee_index_infra_fail (emb : List ℚ) (id : String)
    (emp : EmployeeRec) (st : SysState) :
    add_employee ⟨true, .ok emb, false⟩ id emp st =
      (.indexWriteFailed,
       { records := deleteRecord id ((id, emp) :: st.records),
         index := st.index }) := rfl

lemma verify_decision_eq (d t3 : ℚ) (id : String) (md : List (String × String))
    (emb : List ℚ) (records : Records) (emp : EmployeeRec)
    (hrec : List.lookup id records = some emp) :
    (verify_employee ⟨.ok emb, .ok [(id, d, md)]⟩ records t3).1 =
      if 1 - d / 2 ≥ t3 then
        .matchFound emp (1 - d / 2)
          (if 1 - d / 2 ≥ 0.8 then "High" else "Medium")
      else .noMatchBelowThreshold (1 - d / 2) t3 := by
  show (verify_body ⟨.ok emb, .ok [(id, d, md)]⟩ records t3).1 = _
  unfold verify_body
  simp only [search_embedding, hrec]
  by_cases hge : (1 : ℚ) - d / 2 ≥ t3
  · rw [if_pos hge, if_pos hge]
  · rw [if_neg hge, if_neg hge]

/-! ### Claim theorems -/

/-- Claim C1: after every enrollment call on a fresh identifier — whether it
succeeds or fails at record creation, embedding extraction, or the index
write — the identity record exists iff the embedding entry exists; on every
failure path a subsequent `get` for the attempted identifier returns
not-found on both stores, and on success both exist; all other identifiers
are untouched. -/
theorem c1_enrollment_atomic (w : EnrollWorld) (id : String)
    (emp : EmployeeRec) (st : SysState)
    (hfr : List.lookup id st.records = none)
    (hfi : List.lookup id st.index = none) :
    ((List.lookup id (add_employee w id emp st).2.records).isSome ↔
      (List.lookup id (add_employee w id emp st).2.index).isSome)
    ∧ ((add_employee w id emp st).1.isSuccess = false →
        List.lookup id (add_employee w id emp st).2.records = none
        ∧ List.lookup id (add_employee w id emp st).2.index = none)
    ∧ ((add_employee w id emp st).1.isSuccess = true →
        (List.lookup id (add_employee w id emp st).2.records).isSome = true
        ∧ (List.lookup id (add_employee w id emp st).2.index).isSome = true)
    ∧ (∀ id2, id2 ≠ id →
        List.lookup id2 (add_employee w id emp st).2.records
          = List.lookup id2 st.records
        ∧ List.lookup id2 (add_employee w id emp st).2.index
          = List.lookup id2 st.index) := by
  obtain ⟨cok, ext, iok⟩ := w
  cases cok with
  | false =>
      rw [add_employee_createFail]
      refine ⟨by simp [hfr, hfi], fun _ => ⟨hfr, hfi⟩, ?_, fun id2 h2 => ⟨rfl, rfl⟩⟩
      intro hs
      exact absurd hs (by simp [EnrollOutcome.isSuccess])
  | true =>
      cases ext with
      | error msg =>
          rw [add_employee_extractFail]
          refine ⟨by simp [lookup_deleteRecord_self, hfi], ?_, ?_, ?_⟩
          · exact fun _ => ⟨lookup_deleteRecord_self id _, hfi⟩
          · intro hs
            exact absurd hs (by simp [EnrollOutcome.isSuccess])
          · intro id2 h2
            refine ⟨?_, rfl⟩
            rw [lookup_deleteRecord_ne _ _ _ h2, lookup_cons_ne _ _ _ _ h2]
      | ok emb =>
          cases iok with
          | true =>
              rw [add_employee_ok_fresh emb id emp st hfi]
              refine ⟨by simp [lookup_cons_self], ?_, ?_, ?_⟩
              · intro hs
                exact absurd hs (by simp [EnrollOutcome.isSuccess])
              · exact fun _ => ⟨by simp [lookup_cons_self], by simp [lookup_cons_self]⟩
              · intro id2 h2
                exact ⟨lookup_cons_ne _ _ _ _ h2, lookup_cons_ne _ _ _ _ h2⟩
          | false =>
              rw [add_employee_index_infra_fail]
              refine ⟨by simp [lookup_deleteRecord_self, hfi], ?_, ?_, ?_⟩
              · exact fun _ => ⟨lookup_deleteRecord_self id _, hfi⟩
              · intro hs
                exact absurd hs (by simp [EnrollOutcome.isSuccess])
              · intro id2 h2
                refine ⟨?_, rfl⟩
                rw [lookup_deleteRecord_ne _ _ _ h2, lookup_cons_ne _ _ _ _ h2]

/-- Witness for `c1_enrollment_atomic`: a concrete enrollment whose
extraction fails leaves neither a record nor an embedding behind. -/
theorem c1_enrollment_atomic_witness :
    List.lookup "e1"
      (add_employee ⟨true, .error "No face detected", true⟩ "e1"
        sampleEmployee ⟨[], []⟩).2.records = none
    ∧ List.lookup "e1"
      (add_employee ⟨true, .error "No face detected", true⟩ "e1"
        sampleEmployee ⟨[], []⟩).2.index = none :=
  (c1_enrollment_atomic ⟨true, .error "No face detected", true⟩ "e1"
    sampleEmployee ⟨[], []⟩ rfl rfl).2.1 (by decide)

/-- Claim C3: with the nearest candidate resolving to an existing record,
the verification decision is a match exactly when `similarity ≥ threshold`,
with confidence "High" exactly when `similarity ≥ 0.8` and "Medium"
otherwise, and no-match below the threshold; `decide(0.90, 0.65)` is
Match(High), `decide(0.70, 0.65)` is Match(Medium), `decide(0.50, 0.65)` is
NoMatch, and the 0.8 confidence boundary does not depend on the
configurable threshold. -/
theorem c3_threshold_decision (d t : ℚ) (id : String)
    (md : List (String × String)) (emb : List ℚ) (records : Records)
    (emp : EmployeeRec) (hrec : List.lookup id records = some emp) :
    (1 - d / 2 ≥ t →
      (verify_employee ⟨.ok emb, .ok [(id, d, md)]⟩ records t).1 =
        .matchFound emp (1 - d / 2)
          (if 1 - d / 2 ≥ 0.8 then "High" else "Medium"))
    ∧ (¬ (1 - d / 2 ≥ t) →
      (verify_employee ⟨.ok emb, .ok [(id, d, md)]⟩ records t).1 =
        .noMatchBelowThreshold (1 - d / 2) t)
    ∧ (∀ t2, 1 - d / 2 ≥ t → 1 - d / 2 ≥ t2 →
      (verify_employee ⟨.ok emb, .ok [(id, d, md)]⟩ records t).1 =
      (verify_employee ⟨.ok emb, .ok [(id, d, md)]⟩ records t2).1)
    ∧ (verify_employee ⟨.ok [1], .ok [("e1", 0.2, [])]⟩
        [("e1", sampleEmployee)] SIMILARITY_THRESHOLD).1
      = .matchFound sampleEmployee 0.9 "High"
    ∧ (verify_employee ⟨.ok [1], .ok [("e1", 0.6, [])]⟩
        [("e1", sampleEmployee)] SIMILARITY_THRESHOLD).1
      = .matchFound sampleEmployee 0.7 "Medium"
    ∧ (verify_employee ⟨.ok [1], .ok [("e1", 1, [])]⟩
        [("e1", sampleEmployee)] SIMILARITY_THRESHOLD).1
      = .noMatchBelowThreshold 0.5 SIMILARITY_THRESHOLD := by
  refine ⟨?_, ?_, ?_, ?_, ?_, ?_⟩
  · intro hge
    rw [verify_decision_eq d t id md emb records emp hrec, if_pos hge]
  · intro hlt
    rw [verify_decision_eq d t id md emb records emp hrec, if_neg hlt]
  · intro t2 h1 h2
    rw [verify_decision_eq d t id md emb records emp hrec, if_pos h1,
        verify_decision_eq d t2 id md emb records emp hrec, if_pos h2]
  · rw [verify_decision_eq 0.2 SIMILARITY_THRESHOLD "e1" [] [1]
      [("e1", sampleEmployee)] sampleEmployee rfl]
    norm_num [SIMILARITY_THRESHOLD]
  · rw [verify_decision_eq 0.6 SIMILARITY_THRESHOLD "e1" [] [1]
      [("e1", sampleEmployee)] sampleEmployee rfl]
    norm_num [SIMILARITY_THRESHOLD]
  · rw [verify_decision_eq 1 SIMILARITY_THRESHOLD "e1" [] [1]
      [("e1", sampleEmployee)] sampleEmployee rfl]
    norm_num [SIMILARITY_THRESHOLD]

/-- Witness for `c3_threshold_decision`: the concrete Match(High) case at
similarity 0.90 against the default threshold 0.65. -/
theorem c3_threshold_decision_witness :
    (verify_employee ⟨.ok [1], .ok [("e1", 0.2, [])]⟩
        [("e1", sampleEmployee)] SIMILARITY_THRESHOLD).1
      = .matchFound sampleEmployee 0.9 "High" :=
  (c3_threshold_decision 0.2 SIMILARITY_THRESHOLD "e1" [] [1]
    [("e1", sampleEmployee)] sampleEmployee (by decide)).2.2.2.1

/-- Claim C4 counterexample: a metadata value that is neither a string nor
a number is written as its string form with no cleaning, so a value whose
string form contains LF reaches the index with the LF intact — the blanket
no-control-character conclusion of the claim fails for the other-type
branch. -/
theorem c4_counterexample :
    clean_metadata [("note", MValue.other "line1\nline2")]
      = [("note", "line1\nline2")]
    ∧ noCtrlChars "line1\nline2" = false := by
  decide

/-- Claim C4 (amended): every value written to the index is the result of
the per-type transformation — string values have NUL and CR removed, each
LF replaced by a single space, and are trimmed; integer values are rendered
in canonical decimal form; float and other-typed values are rendered by
`str` with no further cleaning.  Sanitized string values and integer
renderings contain no NUL, CR or LF; float and other-typed values carry
whatever their string form contains. -/
theorem c4_metadata_sanitization (m : List (String × MValue)) (k s : String)
    (hmem : (k, s) ∈ clean_metadata m) :
    ∃ v, (k, v) ∈ m ∧ s = sanitizeValue v
      ∧ (∀ w, v = .str w → s = sanitizeString w ∧ noCtrlChars s = true)
      ∧ (∀ n, v = .int n → s = toString n ∧ noCtrlChars s = true)
      ∧ (∀ r, v = .floatRep r → s = r)
      ∧ (∀ r, v = .other r → s = r) := by
  unfold clean_metadata at hmem
  obtain ⟨kv, hmem2, heq⟩ := List.mem_map.mp hmem
  obtain ⟨k2, v⟩ := kv
  obtain ⟨hk, hs⟩ := Prod.ext_iff.mp heq
  simp only at hk hs
  subst hk
  subst hs
  refine ⟨v, hmem2, rfl, ?_, ?_, ?_, ?_⟩
  · rintro w rfl
    exact ⟨rfl, sanitizeString_noCtrl w⟩
  · rintro n rfl
    exact ⟨rfl, intToString_noCtrl n⟩
  · rintro r rfl
    rfl
  · rintro r rfl
    rfl

/-- Witness for `c4_metadata_sanitization` on a concrete string value with
an embedded NUL byte. -/
theorem c4_metadata_sanitization_witness :
    ∃ v, ("full_name", v) ∈ [("full_name", MValue.str "Te\x00st")]
      ∧ "Test" = sanitizeValue v
      ∧ (∀ w, v = .str w → "Test" = sanitizeString w ∧ noCtrlChars "Test" = true)
      ∧ (∀ n, v = .int n → "Test" = toString n ∧ noCtrlChars "Test" = true)
      ∧ (∀ r, v = .floatRep r → "Test" = r)
      ∧ (∀ r, v = .other r → "Test" = r) :=
  c4_metadata_sanitization [("full_name", MValue.str "Te\x00st")]
    "full_name" "Test" (by decide)

/-- Claim C2: for every cosine distance `d` returned by the nearest-neighbor
query, `search_embedding` computes similarity exactly as `1 - d/2`; in
particular distance 0 yields similarity 1, distance 1 yields 0.5, distance 2
yields 0, and distance 0.3 yields exactly 0.85, which is within 0.005 of
0.85. -/
theorem c2_distance_to_similarity (id : String) (d : ℚ)
    (md : List (String × String))
    (rest : List (String × ℚ × List (String × String))) :
    search_embedding (.ok ((id, d, md) :: rest)) =
      some { id := id, distance := d, similarity := 1 - d / 2, metadata := md }
    ∧ (search_embedding (.ok [("e", 0, [])])).map MatchResult.similarity = some 1
    ∧ (search_embedding (.ok [("e", 1, [])])).map MatchResult.similarity = some 0.5
    ∧ (search_embedding (.ok [("e", 2, [])])).map MatchResult.similarity = some 0
    ∧ (search_embedding (.ok [("e", 0.3, [])])).map MatchResult.similarity = some 0.85
    ∧ |(0.85 : ℚ) - 0.85| ≤ 0.005 := by
  refine ⟨rfl, ?_, ?_, ?_, ?_, by norm_num⟩ <;>
    simp [search_embedding] <;> norm_num

/-- Claim C5 counterexample: sanitizing `{"full_name": "Te\x00st\r\n"}`
stores `"Test"`, not `"Test "`: the space the final LF collapses to is
trailing, and the final `strip` removes it. -/
theorem c5_counterexample :
    clean_metadata [("full_name", MValue.str "Te\x00st\r\n")] =
      [("full_name", "Test")]
    ∧ "Test" ≠ "Test " := by
  decide

/-- Claim C5 (amended): sanitizing the metadata input
`{"full_name": "Te\x00st\r\n"}` produces the stored value
`{"full_name": "Test"}` — NUL and CR are removed, the final LF is collapsed
to a space, and the trailing space is then removed by the final trim. -/
theorem c5_sanitization_example :
    clean_metadata [("full_name", MValue.str "Te\x00st\r\n")] =
      [("full_name", "Test")] := by
  decide

/-- Claim C6 counterexample: when the nearest-neighbor query raises,
`search_embedding` swallows the exception and returns no result, and the
verification flow renders exactly the same ordinary no-match outcome as it
does for an empty index — no typed store-error result is surfaced. -/
theorem c6_counterexample :
    verify_employee ⟨.ok [1], .exn "chroma query failed"⟩ [] SIMILARITY_THRESHOLD
      = verify_employee ⟨.ok [1], .ok []⟩ [] SIMILARITY_THRESHOLD
    ∧ (verify_employee ⟨.ok [1], .exn "chroma query failed"⟩ []
        SIMILARITY_THRESHOLD).1
      = .noMatchNoData "No matching employee found in the database."
    ∧ ((verify_employee ⟨.ok [1], .exn "chroma query failed"⟩ []
        SIMILARITY_THRESHOLD).1).isError = false := by
  refine ⟨rfl, rfl, rfl⟩

/-- Claim C6 (amended): when the nearest-neighbor query itself fails,
`search_embedding` catches the exception and returns no result, and the
verification flow reports the ordinary no-match outcome used for an empty
index; the failure is logged but swallowed, not surfaced as a typed
store-error result the caller could branch on. -/
theorem c6_query_failure_swallowed (emb : List ℚ) (msg : String)
    (records : Records) (t : ℚ) :
    verify_employee ⟨.ok emb, .exn msg⟩ records t
      = (.noMatchNoData "No matching employee found in the database.", false) := by
  rfl

/-- Claim C7: for every probe whose embedding extraction succeeds,
verification against a query returning no candidates (in particular an
empty index) yields the no-data no-match outcome with its fixed message,
and that outcome is not an error report. -/
theorem c7_empty_index_no_match (emb : List ℚ) (records : Records) (t : ℚ) :
    verify_employee ⟨.ok emb, .ok []⟩ records t
      = (.noMatchNoData "No matching employee found in the database.", false)
    ∧ ((verify_employee ⟨.ok emb, .ok []⟩ records t).1).isError = false := by
  exact ⟨rfl, rfl⟩

/-- Claim C8 counterexample: on an image with two detected faces,
`extract_embedding` does not deliver the multiple-faces error unaltered —
the `FaceRecognitionError` raised inside the `try` block is caught by the
blanket `except Exception` handler and re-raised with its message wrapped
in a `"Failed to process image: "` prefix. -/
theorem c8_counterexample :
    extract_embedding (fun v => v) true "probe.jpg" (.faces [[1], [2]])
      = .error ("Failed to process image: " ++ multipleFacesMsg 2)
    ∧ extract_embedding (fun v => v) true "probe.jpg" (.faces [[1], [2]])
      ≠ .error (multipleFacesMsg 2) := by
  decide

/-- Claim C8 (amended): every extraction failure — missing file, no face
(DeepFace `ValueError` or an empty representation list), multiple faces,
or any other library error — surfaces to the caller as the single typed
`FaceRecognitionError`, with no retry; but the multiple-faces and
empty-result messages raised inside the `try` block are re-raised wrapped
with the `"Failed to process image: "` prefix rather than verbatim, and
only the missing-file and `ValueError` no-face paths deliver their message
directly. -/
theorem c8_extraction_errors (normalize : List ℚ → List ℚ) (path m : String)
    (df : DFOutcome) (r r2 : List ℚ) (rest : List (List ℚ)) :
    extract_embedding normalize false path df
      = .error ("Image file not found: " ++ path)
    ∧ extract_embedding normalize true path (.valueError m)
      = .error "No face detected in the image. Please provide a clear face photo."
    ∧ extract_embedding normalize true path (.otherError m)
      = .error ("Failed to process image: " ++ m)
    ∧ extract_embedding normalize true path (.faces [])
      = .error ("Failed to process image: No face detected in the image")
    ∧ extract_embedding normalize true path (.faces (r :: r2 :: rest))
      = .error ("Failed to process image: " ++ multipleFacesMsg (rest.length + 2))
    ∧ extract_embedding normalize true path (.faces [r]) = .ok (normalize r) := by
  refine ⟨rfl, rfl, rfl, rfl, ?_, rfl⟩
  show Except.error ("Failed to process image: " ++
      multipleFacesMsg (r :: r2 :: rest).length) = _
  rfl

/-- Claim C9 counterexample: calling `add_employee_embedding` for an id
whose embedding entry already exists does not overwrite the entry — the
underlying `collection.add` rejects the duplicate id, the old entry stays
in place, and the call reports failure. -/
theorem c9_counterexample :
    add_employee_embedding true "e1" [2] [("full_name", MValue.str "New Name")]
      oldIdx = (false, oldIdx)
    ∧ List.lookup "e1" oldIdx = some ([1], [("full_name", "Old Name")]) := by
  decide

/-- Claim C9 (amended): for every identifier whose embedding entry already
exists, `add_employee_embedding` does not overwrite it: the service calls
the collection's `add` (not `upsert`), the duplicate id is rejected, the
index is left unchanged, and the function reports failure. -/
theorem c9_add_does_not_overwrite (id : String) (emb : List ℚ)
    (md : List (String × MValue)) (idx : Index)
    (h : (List.lookup id idx).isSome = true) :
    add_employee_embedding true id emb md idx = (false, idx) := by
  simp [add_employee_embedding, collection_add, h]

/-- Witness for `c9_add_does_not_overwrite` at a concrete populated index. -/
theorem c9_add_does_not_overwrite_witness :
    add_employee_embedding true "e1" [2]
      [("full_name", MValue.str "New Name")] oldIdx = (false, oldIdx) :=
  c9_add_does_not_overwrite "e1" [2] [("full_name", MValue.str "New Name")]
    oldIdx (by decide)

/-- Claim C10: in every verification call, the temporary probe file is
deleted on every exit path — after the call returns the temporary file
no longer exists; moreover on the extraction-failure path the inner body
exits with the file still present, and it is the `finally` block that
removes it. -/
theorem c10_temp_file_released (w : VerifyWorld) (records : Records) (t : ℚ) :
    (verify_employee w records t).2 = false
    ∧ (∀ msg, w.extractResult = .error msg →
        (verify_body w records t).2 = true) := by
  constructor
  · show finallyCleanup (verify_body w records t).2 = false
    unfold finallyCleanup
    cases (verify_body w records t).2 <;> simp
  · intro msg h
    unfold verify_body
    rw [h]

/-- Witness for `c10_temp_file_released` on a concrete failing world. -/
theorem c10_temp_file_released_witness :
    (verify_employee ⟨.error "No face detected", .ok []⟩ [] SIMILARITY_THRESHOLD).2
      = false
    ∧ (verify_body ⟨.error "No face detected", .ok []⟩ [] SIMILARITY_THRESHOLD).2
      = true :=
  ⟨(c10_temp_file_released ⟨.error "No face detected", .ok []⟩ []
      SIMILARITY_THRESHOLD).1,
   (c10_temp_file_released ⟨.error "No face detected", .ok []⟩ []
      SIMILARITY_THRESHOLD).2 "No face detected" rfl⟩

end EVP
